import Mathlib

/-!
# Verification of the Keys SSO gateway core

Shallow embedding of the auth-server core (access policy, app resolver,
session credential lifecycle, endpoints, and downstream verification
middleware) with theorems checking the specification's claims.
-/

namespace Keys

/-- Lowercasing of a string, character by character; embeds JavaScript
`String.prototype.toLowerCase` on the ASCII inputs the policy handles. -/
def toLowerStr (s : String) : String :=
  ⟨s.data.map Char.toLower⟩

/-- `endsWithStr s suffix` embeds JavaScript `s.endsWith(suffix)`. -/
def endsWithStr (s suffix : String) : Bool :=
  suffix.data.isSuffixOf s.data

/-- `startsWithStr s p` embeds JavaScript `s.startsWith(p)`. -/
def startsWithStr (s p : String) : Bool :=
  p.data.isPrefixOf s.data

/-- Split a character list at every occurrence of a separator character;
embeds JavaScript `String.prototype.split` with a one-character separator
(`"".split('.') = [""]`, `".a".split('.') = ["", "a"]`). -/
def splitOnChar (c : Char) : List Char → List (List Char)
  | [] => [[]]
  | x :: xs =>
    let r := splitOnChar c xs
    if x = c then [] :: r
    else
      match r with
      | y :: ys => (x :: y) :: ys
      | [] => [[x]]

/-- JavaScript truthiness on an optional string: `undefined` and `""` are
falsy, every other string is truthy. -/
def strTruthy : Option String → Bool
  | none => false
  | some s => s ≠ ""

/-- JavaScript `a || b` on optional strings (returns `b` whenever `a` is
falsy, i.e. absent or the empty string). -/
def jsOrStr (a b : Option String) : Option String :=
  if strTruthy a then a else b

/-!
## Access Policy (auth server, `checkAccess` / `isInternalEmail` / `isPublicAppName`)

The email argument is `Option String`: `some s` is a JavaScript string
value, `none` stands for any non-string value (`undefined`, `null`, a
number, ...), which the source's `typeof email === 'string'` guard
rejects.  The app argument is `Option String`: `none` is `undefined`.
-/

/-- The `PUBLIC_APPS` allow-list and the `JWT_SECRET`, read once from the
environment at startup (read-only process-wide configuration). -/
structure Config where
  publicApps : List String
  jwtSecret : String

/-- `isPublicAppName(app)`: membership of the app name in the
`PUBLIC_APPS` allow-list (`PUBLIC_APPS.includes(app)`; `undefined` is
never a member of a list of strings). -/
def isPublicAppName (publicApps : List String) (app : Option String) : Bool :=
  match app with
  | some a => publicApps.contains a
  | none => false

/-- `isInternalEmail(email)`:
`typeof email === 'string' && email.toLowerCase().endsWith('@vnrvjiet.in')`. -/
def isInternalEmail (email : Option String) : Bool :=
  match email with
  | some s => endsWithStr (toLowerStr s) "@vnrvjiet.in"
  | none => false

/-- The access decision record returned by `checkAccess`.  `reason` is
`none` when the source sets the field to `undefined`. -/
structure AccessDecision where
  publicApp : Bool
  internal : Bool
  allowed : Bool
  reason : Option String
  deriving Repr, DecidableEq

/-- The fixed denial reason string of `checkAccess`. -/
def denialReason : String :=
  "Only @vnrvjiet.in email addresses are allowed for this application"

/-- `checkAccess(email, app)`: the centralized access decision of the auth
server. -/
def checkAccess (publicApps : List String) (email : Option String)
    (app : Option String) : AccessDecision :=
  let publicApp := isPublicAppName publicApps app
  let internal := isInternalEmail email
  { publicApp := publicApp
    internal := internal
    allowed := publicApp || internal
    reason := if publicApp then none else some denialReason }

/-!
## App Resolver (`parseAppFromUrl` / `getAppFromRequest`)
-/

/-- Modelled from the spec: the WHATWG URL parser (`new URL(x).hostname`)
used by the resolver is library code outside this repository.  This
models it on the `scheme://host[:port][/path...]` shapes that `Origin`
and `Referer` headers take: a non-empty scheme before `://`, then the
host up to the first `/`, `?`, `#` or `:`, lowercased; any other shape
(no scheme, empty host) makes the constructor throw, i.e. `none`. -/
def urlHostname (s : String) : Option String :=
  let cs := s.data
  let schemePart := cs.takeWhile (fun ch => ch ≠ ':')
  if schemePart.isEmpty then none
  else
    match cs.drop schemePart.length with
    | ':' :: '/' :: '/' :: tail =>
      let hostPort := tail.takeWhile (fun ch => ch ≠ '/' && ch ≠ '?' && ch ≠ '#')
      let host := hostPort.takeWhile (fun ch => ch ≠ ':')
      if host.isEmpty then none else some ⟨host.map Char.toLower⟩
    | _ => none

/-- `parseAppFromUrl(maybeUrl)`: `undefined` (or any falsy value) yields
`undefined`; otherwise parse as URL (a parse failure is caught and yields
`undefined`), split the hostname on `.`, and if there are at least three
labels whose last two joined by `.` equal `vjstartup.com`, the first
label is the app name. -/
def parseAppFromUrl (maybeUrl : Option String) : Option String :=
  match maybeUrl with
  | none => none
  | some s =>
    if s = "" then none
    else
      match urlHostname s with
      | none => none
      | some host =>
        let parts := splitOnChar '.' host.data
        if 3 ≤ parts.length &&
            List.intercalate ['.'] (parts.drop (parts.length - 2))
              = "vjstartup.com".data then
          (parts.head?).map fun p => (⟨p⟩ : String)
        else none

/-- The request fields `getAppFromRequest` reads: the explicit `app`
parameter in body, query and `x-app-name` header, and the
`Origin`/`Referer`/`Referrer` headers.  `none` is an absent field. -/
structure AppCtx where
  bodyApp : Option String
  queryApp : Option String
  headerApp : Option String
  origin : Option String
  referer : Option String
  referrer : Option String
  deriving Repr, DecidableEq

/-- `getAppFromRequest(req)`: explicit parameter
(`req.body.app || req.query.app || req.headers['x-app-name']`) when
truthy, else app parsed from `Origin`, else from
`Referer`/`Referrer`. -/
def getAppFromRequest (r : AppCtx) : Option String :=
  let direct := jsOrStr (jsOrStr r.bodyApp r.queryApp) r.headerApp
  if strTruthy direct then direct
  else
    let referer := jsOrStr r.referer r.referrer
    jsOrStr (parseAppFromUrl r.origin) (parseAppFromUrl referer)

/-!
## Session Credential (JWT) model

`jwt.sign` / `jwt.verify` (the `jsonwebtoken` HS256 pair) are library
code outside this repository; they are modelled from the spec below.
-/

/-- The identity claim extracted from a verified Google payload:
`{ email, name, picture, family_name }`. -/
structure Claim where
  email : String
  name : String
  picture : String
  familyName : String
  deriving Repr, DecidableEq

/-- The payload carried by a signed token: an SSO payload (identity
claim, has `email`), a legacy local payload (has `userId` and `role`),
or any other claim object (neither field present). -/
inductive Payload where
  | sso (c : Claim)
  | localUser (userId : String) (role : String)
  | other
  deriving Repr, DecidableEq

/-- `payload.email` as JavaScript reads it: `some` for an SSO payload,
`undefined` otherwise. -/
def Payload.emailField : Payload → Option String
  | .sso c => some c.email
  | _ => none

/-- `payload.userId` as JavaScript reads it: `some` for a legacy local
payload, `undefined` otherwise. -/
def Payload.userIdField : Payload → Option String
  | .localUser uid _ => some uid
  | _ => none

/-- A token value as the handlers see it: either a well-formed signed
token (payload, issued-at, expiry, signature) or any other string
(malformed, tampered, foreign). -/
inductive Token where
  | signed (payload : Payload) (iat exp sig : Nat)
  | garbage (s : String)
  deriving Repr, DecidableEq

/-- JavaScript truthiness of a token-valued variable: the empty string is
the only falsy token value. -/
def tokTruthy : Token → Bool
  | .garbage s => s ≠ ""
  | .signed _ _ _ _ => true

/-- JavaScript truthiness of an optional token. -/
def optTokTruthy : Option Token → Bool
  | none => false
  | some t => tokTruthy t

/-- JavaScript `a || b` on optional tokens. -/
def jsOrTok (a b : Option Token) : Option Token :=
  if optTokTruthy a then a else b

/-- A simple executable keyed hash over a string. -/
def hashStr (s : String) : Nat :=
  s.data.foldl (fun a c => a * 131 + c.toNat + 7) 5381

/-- Hash of a payload, for the modelled signature. -/
def hashPayload : Payload → Nat
  | .sso c =>
    3 + 31 * (hashStr c.email + 131 * (hashStr c.name
      + 131 * (hashStr c.picture + 131 * hashStr c.familyName)))
  | .localUser uid role => 5 + 31 * (hashStr uid + 131 * hashStr role)
  | .other => 11

/-- Modelled from the spec: the HMAC signature of `jsonwebtoken` (HS256),
library code outside this repository — a deterministic keyed digest of
the payload and timestamps under the server secret. -/
def sigOf (secret : String) (p : Payload) (iat exp : Nat) : Nat :=
  hashStr secret * 1000003 + hashPayload p * 257 + iat * 31 + exp * 37

/-- Thirty days, in seconds: the `expiresIn: "30d"` lifetime. -/
def thirtyDays : Nat := 30 * 24 * 60 * 60

/-- Modelled from the spec: `jwt.sign(payload, JWT_SECRET,
{ expiresIn: "30d" })` — a signed, expiring token embedding the
payload, issued at `now` with a 30-day lifetime. -/
def signJwt (secret : String) (p : Payload) (now : Nat) : Token :=
  .signed p now (now + thirtyDays) (sigOf secret p now (now + thirtyDays))

/-- Modelled from the spec: `jwt.verify(token, JWT_SECRET)` — returns the
payload when the signature validates against the secret and the token is
not expired, and throws (here `none`) on a malformed token, a bad
signature, or expiry. -/
def verifyJwt (secret : String) (now : Nat) : Token → Option Payload
  | .signed p iat exp sig =>
    if sig = sigOf secret p iat exp && now < exp then some p else none
  | .garbage _ => none

/-!
## Cookie lifecycle (`getCookieSettings` / `setAuthCookies` / `clearAuthCookies`)
-/

/-- A cookie value: the signed token (for `userToken`), the JSON mirror of
the user claim (for `user`), or the empty string used to clear. -/
inductive CookieVal where
  | tokenVal (t : Token)
  | jsonUser (c : Claim)
  | emptyVal
  deriving Repr, DecidableEq

/-- One `Set-Cookie` directive as `res.cookie` produces it.  `expiresMs`
is the absolute `expires` date in milliseconds since the epoch
(`new Date(0)` is `some 0`); `maxAgeMs` is the relative `maxAge`. -/
structure SetCookie where
  name : String
  value : CookieVal
  domain : Option String
  path : String
  sameSite : String
  secure : Bool
  httpOnly : Bool
  maxAgeMs : Option Nat
  expiresMs : Option Nat
  deriving Repr, DecidableEq

/-- The base cookie attributes of `getCookieSettings(req)`, computed from
the request hostname. -/
structure CookieBase where
  isLocalhost : Bool
  domain : Option String
  path : String
  sameSite : String
  secure : Bool
  deriving Repr, DecidableEq

/-- `getCookieSettings(req)`: localhost/loopback hosts get no cookie
domain and `secure:false`; every other host gets domain
`.vjstartup.com` and `secure:true`; `sameSite` is always `Lax` and the
path `/`. -/
def getCookieSettings (hostname : String) : CookieBase :=
  let isLocalhost := hostname = "localhost" || startsWithStr hostname "127."
    || hostname = "::1"
  { isLocalhost := isLocalhost
    domain := if isLocalhost then none else some ".vjstartup.com"
    path := "/"
    sameSite := "Lax"
    secure := !isLocalhost }

/-- `setAuthCookies(res, req, userToken, user)`: the `userToken`
(httpOnly) and `user` (plain JSON) cookies with a 30-day `maxAge`. -/
def setAuthCookies (hostname : String) (userToken : Token) (user : Claim) :
    List SetCookie :=
  let base := getCookieSettings hostname
  let maxAge := 30 * 24 * 60 * 60 * 1000
  [ { name := "userToken", value := .tokenVal userToken, domain := base.domain
      path := base.path, sameSite := base.sameSite, secure := base.secure
      httpOnly := true, maxAgeMs := some maxAge, expiresMs := none }
  , { name := "user", value := .jsonUser user, domain := base.domain
      path := base.path, sameSite := base.sameSite, secure := base.secure
      httpOnly := false, maxAgeMs := some maxAge, expiresMs := none } ]

/-- `clearAuthCookies(res, req)`: both cookies re-set to the empty value
with `expires: new Date(0)`. -/
def clearAuthCookies (hostname : String) : List SetCookie :=
  let base := getCookieSettings hostname
  [ { name := "userToken", value := .emptyVal, domain := base.domain
      path := base.path, sameSite := base.sameSite, secure := base.secure
      httpOnly := true, maxAgeMs := none, expiresMs := some 0 }
  , { name := "user", value := .emptyVal, domain := base.domain
      path := base.path, sameSite := base.sameSite, secure := base.secure
      httpOnly := false, maxAgeMs := none, expiresMs := some 0 } ]

/-!
## Auth-server endpoints
-/

/-- A `POST /auth/google` request: the identity token in the body, the
app-signaling fields, and the request hostname (for cookie attributes). -/
structure GoogleAuthReq where
  bodyToken : Option Token
  appCtx : AppCtx
  hostname : String
  deriving Repr, DecidableEq

/-- The JSON body of a `POST /auth/google` response. -/
inductive GoogleAuthBody where
  | ok (token : Token) (user : Claim)
  | denied (error : String) (message : Option String)
  | invalidTok (error : String)
  deriving Repr, DecidableEq

/-- An HTTP response: status, JSON body, `Set-Cookie` directives. -/
structure HttpResp (β : Type) where
  status : Nat
  body : β
  cookies : List SetCookie
  deriving Repr, DecidableEq

/-- The outcome of `client.verifyIdToken` (the Google library call):
`Except.ok` with the verified payload fields, or `Except.error` when it
throws (invalid, expired, malformed or absent token). -/
def GoogleVerify : Type := Option Token → Except Unit Claim

/-- `POST /auth/google`: verify the Google identity token (a throw is
caught and answered `401 {error:"Invalid Token"}` with no cookies),
resolve the app, apply `checkAccess` (a denial is answered
`403 {error, message}` with no cookies and no token signed), else sign a
30-day session token, set both auth cookies and answer
`200 {token, user}`. -/
def postAuthGoogle (cfg : Config) (googleVerify : GoogleVerify) (now : Nat)
    (req : GoogleAuthReq) : HttpResp GoogleAuthBody :=
  let app := getAppFromRequest req.appCtx
  match googleVerify req.bodyToken with
  | .error _ => { status := 401, body := .invalidTok "Invalid Token", cookies := [] }
  | .ok payload =>
    let access := checkAccess cfg.publicApps (some payload.email) app
    if access.allowed then
      let userToken := signJwt cfg.jwtSecret (.sso payload) now
      { status := 200
        body := .ok userToken payload
        cookies := setAuthCookies req.hostname userToken payload }
    else
      { status := 403
        body := .denied "Access Denied (Only VNRVJIET allowed)" access.reason
        cookies := [] }

/-- A `GET /check-auth` request: the `userToken` cookie and the
app-signaling fields. -/
structure CheckAuthReq where
  cookieUserToken : Option Token
  appCtx : AppCtx
  deriving Repr, DecidableEq

/-- The JSON body of a `GET /check-auth` response. -/
inductive CheckAuthBody where
  | notLoggedIn
  | deniedApp (error : String)
  | loggedIn (user : Payload)
  deriving Repr, DecidableEq

/-- The `logged_in` field of a `GET /check-auth` response body. -/
def CheckAuthBody.loggedInField : CheckAuthBody → Bool
  | .loggedIn _ => true
  | _ => false

/-- `GET /check-auth`: a missing (or falsy) `userToken` cookie answers
`200 {logged_in:false}`; a verification failure is caught and likewise
answers `200 {logged_in:false}`; a valid token failing `checkAccess`
answers `200 {logged_in:false, error}`; else `200 {logged_in:true,
user}`.  `res.json` without `res.status` always answers 200. -/
def getCheckAuth (cfg : Config) (now : Nat) (req : CheckAuthReq) :
    Nat × CheckAuthBody :=
  let app := getAppFromRequest req.appCtx
  match req.cookieUserToken with
  | none => (200, .notLoggedIn)
  | some t =>
    if !tokTruthy t then (200, .notLoggedIn)
    else
      match verifyJwt cfg.jwtSecret now t with
      | none => (200, .notLoggedIn)
      | some user =>
        let access := checkAccess cfg.publicApps user.emailField app
        if access.allowed then (200, .loggedIn user)
        else (200, .deniedApp "Access denied for this application")

/-- A `POST /verify-token` request: the token in the body and the
app-signaling fields. -/
structure VerifyTokenReq where
  bodyToken : Option Token
  appCtx : AppCtx
  deriving Repr, DecidableEq

/-- The JSON body of a `POST /verify-token` response. -/
inductive VerifyTokenBody where
  | ok (user : Payload)
  | deniedApp (error : String)
  | invalid
  | missing
  deriving Repr, DecidableEq

/-- The `valid` field of a `POST /verify-token` response body. -/
def VerifyTokenBody.validField : VerifyTokenBody → Bool
  | .ok _ => true
  | _ => false

/-- `POST /verify-token`: a missing (falsy) body token answers
`401 {valid:false}`; a verification failure is caught and answers
`403 {valid:false}`; a valid token failing `checkAccess` answers
`403 {valid:false, error}`; else `200 {valid:true, user}`. -/
def postVerifyToken (cfg : Config) (now : Nat) (req : VerifyTokenReq) :
    Nat × VerifyTokenBody :=
  let app := getAppFromRequest req.appCtx
  match req.bodyToken with
  | none => (401, .missing)
  | some t =>
    if !tokTruthy t then (401, .missing)
    else
      match verifyJwt cfg.jwtSecret now t with
      | none => (403, .invalid)
      | some user =>
        let access := checkAccess cfg.publicApps user.emailField app
        if access.allowed then (200, .ok user)
        else (403, .deniedApp "Access denied for this application")

/-- A `POST /logout` request: the hostname (read for cookie attributes)
and whatever cookies the client happens to send (never read). -/
structure LogoutReq where
  hostname : String
  cookies : List (String × String)
  deriving Repr, DecidableEq

/-- `POST /logout`: clear both auth cookies and answer
`200 {success:true}` (the `Bool` is the body's `success` field). -/
def postLogout (req : LogoutReq) : Nat × Bool × List SetCookie :=
  (200, true, clearAuthCookies req.hostname)

/-!
## Downstream middleware (`verifyHybridToken`, `verifyToken`)
-/

/-- A request as the downstream middleware sees it: the `userToken` and
legacy `token` cookies, and the token carried by a `Bearer`
authorization header (`none` when the header is absent or not of the
`Bearer` form; `some (.garbage "")` models a header that is exactly
`"Bearer "`). -/
structure MwReq where
  cookieUserToken : Option Token
  cookieToken : Option Token
  bearer : Option Token
  deriving Repr, DecidableEq

/-- The token-extraction step shared by both middleware:
`req.cookies.userToken || req.cookies.token`, then the bearer header if
that was falsy. -/
def extractToken (req : MwReq) : Option Token :=
  let t0 := jsOrTok req.cookieUserToken req.cookieToken
  if optTokTruthy t0 then t0
  else
    match req.bearer with
    | some b => some b
    | none => t0

/-- A remote SSO user object as `/verify-token` returns it; `id` and
`underId` are the JavaScript `user.id` and `user._id` fields. -/
structure SsoUser where
  id : Option String
  underId : Option String
  deriving Repr, DecidableEq

/-- The outcome of `await verifySSOToken(token)`: a valid result, an
explicit `{valid:false}` result (the central server answered an error
status, turned into a value by the axios wrapper), or a throw (network
failure, unconfigured SSO URL). -/
inductive SsoOutcome where
  | valid (u : SsoUser)
  | invalid
  | thrown
  deriving Repr, DecidableEq

/-- A user document of the local user registry. -/
structure LocalUser where
  idStr : String
  role : String
  email : String
  deriving Repr, DecidableEq

/-- The environment of `verifyHybridToken`: the central verifier call,
the local signing secret and clock, and the `User.findById` lookup
(keyed by the decoded `userId`, `none` for a missing user; a payload
with no `userId` field looks up `none`). -/
structure HybridEnv where
  sso : Token → SsoOutcome
  localSecret : String
  now : Nat
  findById : Option String → Option LocalUser

/-- The outcome of a middleware run: an error response
(`res.status(s).json({success:false, message})`), or `next()` with the
attached caller id and auth method. -/
inductive MwOutcome where
  | reject (status : Nat) (message : String)
  | pass (callerId : Option String) (authMethod : String)
  deriving Repr, DecidableEq

/-- `verifyHybridToken`: extract a token (none → 401); try SSO
verification first — a valid result passes with
`authMethod:'sso'` and `userId = user.id || user._id`; an invalid
result or a thrown SSO call falls through to local `jwt.verify`; a local
verification throw is caught by the outer handler as
`401 {message:'Invalid or expired token'}`; a decoded token whose
`userId` finds no user answers `401 {message:'User not found'}`; a found
user passes with `authMethod:'local'`. -/
def verifyHybridToken (env : HybridEnv) (req : MwReq) : MwOutcome :=
  match extractToken req with
  | none => .reject 401 "Authentication required - no token provided"
  | some t =>
    if !tokTruthy t then
      .reject 401 "Authentication required - no token provided"
    else
      match env.sso t with
      | .valid u => .pass (jsOrStr u.id u.underId) "sso"
      | _ =>
        match verifyJwt env.localSecret env.now t with
        | none => .reject 401 "Invalid or expired token"
        | some p =>
          match env.findById p.userIdField with
          | none => .reject 401 "User not found"
          | some u => .pass (some u.idStr) "local"

/-- The environment of the downstream `verifyToken` middleware: secret,
clock, `User.findOne({email})` and `User.findById(...).select('role')`
lookups.  `Except.error` models a thrown database call. -/
structure VTEnv where
  secret : String
  now : Nat
  findOneByEmail : String → Except Unit (Option LocalUser)
  findRoleById : String → Except Unit (Option String)

/-- The outcome of the downstream `verifyToken` middleware: an error
response or `next()` with the attached `req.userId` / `req.userRole`. -/
inductive VTOutcome where
  | respond (status : Nat) (message : String)
  | next (userId : String) (userRole : String)
  deriving Repr, DecidableEq

/-- The downstream `verifyToken` middleware: extract a token (none →
`401 Unauthorized - no token provided`); `jwt.verify` — a throw is
caught by the catch block, which answers `500 Server error`; an SSO
payload (has `email`) is looked up by email (`401 User not found` /
`500 Database error` on a thrown lookup / pass with the directory user's
id and role); a legacy payload (has `userId`) passes with the token's
id, preferring the database role over the token role when they differ
(lookup failures tolerated); any other payload answers
`401 Invalid token structure`. -/
def verifyTokenMw (env : VTEnv) (req : MwReq) : VTOutcome :=
  match extractToken req with
  | none => .respond 401 "Unauthorized - no token provided"
  | some t =>
    if !tokTruthy t then
      .respond 401 "Unauthorized - no token provided"
    else
      match verifyJwt env.secret env.now t with
      | none => .respond 500 "Server error"
      | some decoded =>
        match decoded with
        | .sso c =>
          match env.findOneByEmail c.email with
          | .error _ => .respond 500 "Database error"
          | .ok none => .respond 401 "User not found"
          | .ok (some u) => .next u.idStr u.role
        | .localUser userId role =>
          match env.findRoleById userId with
          | .error _ => .next userId role
          | .ok none => .next userId role
          | .ok (some dbRole) =>
            .next userId (if dbRole ≠ role then dbRole else role)
        | .other => .respond 401 "Invalid token structure"

/-!
## Theorems for the claims
-/

/-- C1: for every email string that ends, compared case-insensitively,
with the trusted organizational suffix `@vnrvjiet.in`, and for every app
name (including `undefined`) and every configured allow-list,
`checkAccess` returns a decision with `allowed = true`. -/
theorem checkAccess_trusted_suffix_allowed (publicApps : List String)
    (email : String) (app : Option String)
    (h : endsWithStr (toLowerStr email) "@vnrvjiet.in" = true) :
    (checkAccess publicApps (some email) app).allowed = true := by
  simp [checkAccess, isInternalEmail, h]

/-- Witness for C1 at `USER@VnrVjiet.IN` with an undefined app name. -/
theorem checkAccess_trusted_suffix_allowed_witness :
    (checkAccess [] (some "USER@VnrVjiet.IN") none).allowed = true :=
  checkAccess_trusted_suffix_allowed [] "USER@VnrVjiet.IN" none (by decide)

/-- C2: `checkAccess` is total by construction (a total computable
function of arbitrary `Option String` inputs, where `none` covers
`undefined` and any non-string email, so no exception is possible), and
whenever the email does not end case-insensitively with the trusted
suffix and the app is not in the allow-list, the decision has
`allowed = false` together with the fixed non-empty denial reason. -/
theorem checkAccess_denied_with_reason (publicApps : List String)
    (email app : Option String)
    (h1 : ∀ s, email = some s → endsWithStr (toLowerStr s) "@vnrvjiet.in" = false)
    (h2 : ∀ a, app = some a → publicApps.contains a = false) :
    (checkAccess publicApps email app).allowed = false ∧
    (checkAccess publicApps email app).reason = some denialReason ∧
    denialReason ≠ "" := by
  have hint : isInternalEmail email = false := by
    cases email with
    | none => rfl
    | some s => simpa [isInternalEmail] using h1 s rfl
  have hpub : isPublicAppName publicApps app = false := by
    cases app with
    | none => rfl
    | some a => simpa [isPublicAppName] using h2 a rfl
  refine ⟨?_, ?_, by decide⟩
  · simp [checkAccess, hint, hpub]
  · simp [checkAccess, hpub]

/-- Witness for C2 at `user@gmail.com` and the non-public app
`faculty-portal` against the allow-list `wall, events, passport`. -/
theorem checkAccess_denied_with_reason_witness :
    (checkAccess ["wall", "events", "passport"] (some "user@gmail.com")
      (some "faculty-portal")).allowed = false ∧
    (checkAccess ["wall", "events", "passport"] (some "user@gmail.com")
      (some "faculty-portal")).reason = some denialReason ∧
    denialReason ≠ "" :=
  checkAccess_denied_with_reason ["wall", "events", "passport"]
    (some "user@gmail.com") (some "faculty-portal")
    (by intro s hs; cases hs; decide)
    (by intro a ha; cases ha; decide)

/-- C10: a `POST /verify-token` request with no token in the body is
answered `401 {valid:false}`, a status distinct from the
`403 {valid:false}` answered when a token is present but fails
signature or expiry verification. -/
theorem postVerifyToken_missing_401_vs_invalid_403 (cfg : Config) (now : Nat)
    (ctx : AppCtx) (t : Token) (ht : tokTruthy t = true)
    (hv : verifyJwt cfg.jwtSecret now t = none) :
    postVerifyToken cfg now ⟨none, ctx⟩ = (401, .missing) ∧
    VerifyTokenBody.missing.validField = false ∧
    postVerifyToken cfg now ⟨some t, ctx⟩ = (403, .invalid) ∧
    VerifyTokenBody.invalid.validField = false := by
  refine ⟨rfl, rfl, ?_, rfl⟩
  simp [postVerifyToken, ht, hv]

/-- Witness for C10: empty body versus the malformed token `"bad"`. -/
theorem postVerifyToken_missing_401_vs_invalid_403_witness :
    postVerifyToken ⟨["wall"], "secret"⟩ 0
        ⟨none, none, none, none, none, none, none⟩ = (401, .missing) ∧
    VerifyTokenBody.missing.validField = false ∧
    postVerifyToken ⟨["wall"], "secret"⟩ 0
        ⟨some (.garbage "bad"), none, none, none, none, none, none⟩
      = (403, .invalid) ∧
    VerifyTokenBody.invalid.validField = false :=
  postVerifyToken_missing_401_vs_invalid_403 ⟨["wall"], "secret"⟩ 0
    ⟨none, none, none, none, none, none⟩ (.garbage "bad")
    (by decide) (by decide)

/-- C7: `GET /check-auth` answers HTTP 200 on every request (so in
particular never 401), and a missing `userToken` cookie, a falsy cookie
value, or a cookie failing signature/expiry verification all produce the
body `{logged_in:false}`. -/
theorem getCheckAuth_missing_or_invalid_200_false :
    (∀ (cfg : Config) (now : Nat) (req : CheckAuthReq),
      (getCheckAuth cfg now req).1 = 200) ∧
    (∀ (cfg : Config) (now : Nat) (ctx : AppCtx),
      getCheckAuth cfg now ⟨none, ctx⟩ = (200, .notLoggedIn)) ∧
    (∀ (cfg : Config) (now : Nat) (ctx : AppCtx) (t : Token),
      verifyJwt cfg.jwtSecret now t = none →
      getCheckAuth cfg now ⟨some t, ctx⟩ = (200, .notLoggedIn)) := by
  refine ⟨?_, ?_, ?_⟩
  · intro cfg now req
    rcases req with ⟨tok, ctx⟩
    cases tok with
    | none => rfl
    | some t =>
      simp only [getCheckAuth]
      split
      · rfl
      · split
        · rfl
        · split <;> rfl
  · intro cfg now ctx
    rfl
  · intro cfg now ctx t hv
    by_cases ht : tokTruthy t = true
    · simp [getCheckAuth, ht, hv]
    · simp [getCheckAuth, hv]

/-- Witness for C7: no cookie, and the malformed cookie `"bad"`. -/
theorem getCheckAuth_missing_or_invalid_200_false_witness :
    (getCheckAuth ⟨["wall"], "secret"⟩ 0
        ⟨none, none, none, none, none, none, none⟩).1 = 200 ∧
    getCheckAuth ⟨["wall"], "secret"⟩ 0
        ⟨none, none, none, none, none, none, none⟩ = (200, .notLoggedIn) ∧
    getCheckAuth ⟨["wall"], "secret"⟩ 0
        ⟨some (.garbage "bad"), none, none, none, none, none, none⟩
      = (200, .notLoggedIn) :=
  ⟨getCheckAuth_missing_or_invalid_200_false.1 ⟨["wall"], "secret"⟩ 0
      ⟨none, ⟨none, none, none, none, none, none⟩⟩,
    getCheckAuth_missing_or_invalid_200_false.2.1 ⟨["wall"], "secret"⟩ 0
      ⟨none, none, none, none, none, none⟩,
    getCheckAuth_missing_or_invalid_200_false.2.2 ⟨["wall"], "secret"⟩ 0
      ⟨none, none, none, none, none, none⟩ (.garbage "bad") (by decide)⟩

/-- C9: `POST /logout` is idempotent and cookie-independent: its response
never depends on the request's cookies (so a second logout returns the
same response as the first, with no error), and for every request it is
`200 {success:true}` together with exactly the `userToken` and `user`
cookies re-set to the empty value with epoch expiry. -/
theorem postLogout_idempotent_clears :
    (∀ (h : String) (c c' : List (String × String)),
      postLogout ⟨h, c⟩ = postLogout ⟨h, c'⟩) ∧
    (∀ req : LogoutReq,
      (postLogout req).1 = 200 ∧ (postLogout req).2.1 = true ∧
      ((postLogout req).2.2).map (fun ck => (ck.name, ck.value, ck.expiresMs, ck.maxAgeMs))
        = [("userToken", .emptyVal, some 0, none),
           ("user", .emptyVal, some 0, none)]) := by
  constructor
  · intro h c c'
    rfl
  · intro req
    refine ⟨rfl, rfl, ?_⟩
    simp [postLogout, clearAuthCookies]

/-- The URL parser rejects the empty string (helper shared by the
resolver proofs). -/
theorem urlHostname_empty : urlHostname "" = none := by decide

/-- C4: the App Resolver is a pure function (a Lean `def`, so determinism
is by construction) following the precedence explicit parameter (body,
then query, then `x-app-name` header) over `Origin` over `Referer`: a
truthy explicit value is returned verbatim; otherwise the
subdomain rule applies to `Origin` then `Referer`; a host with at least
three dot-separated labels whose last two joined equal `vjstartup.com`
yields its first label, and the two-label host
`https://vjstartup.com` yields `undefined`. -/
theorem getAppFromRequest_precedence_and_rule :
    (∀ r : AppCtx, strTruthy r.bodyApp = true →
      getAppFromRequest r = r.bodyApp) ∧
    (∀ r : AppCtx, strTruthy r.bodyApp = false → strTruthy r.queryApp = true →
      getAppFromRequest r = r.queryApp) ∧
    (∀ r : AppCtx, strTruthy r.bodyApp = false → strTruthy r.queryApp = false →
      strTruthy r.headerApp = true → getAppFromRequest r = r.headerApp) ∧
    (∀ r : AppCtx, strTruthy r.bodyApp = false → strTruthy r.queryApp = false →
      strTruthy r.headerApp = false →
      getAppFromRequest r
        = jsOrStr (parseAppFromUrl r.origin)
            (parseAppFromUrl (jsOrStr r.referer r.referrer))) ∧
    (∀ url host : String, urlHostname url = some host →
      3 ≤ (splitOnChar '.' host.data).length →
      List.intercalate ['.']
          ((splitOnChar '.' host.data).drop
            ((splitOnChar '.' host.data).length - 2)) = "vjstartup.com".data →
      parseAppFromUrl (some url)
        = ((splitOnChar '.' host.data).head?).map (fun p => (⟨p⟩ : String))) ∧
    parseAppFromUrl (some "https://vjstartup.com") = none := by
  refine ⟨?_, ?_, ?_, ?_, ?_, by decide⟩
  · intro r h
    simp [getAppFromRequest, jsOrStr, h]
  · intro r h1 h2
    simp [getAppFromRequest, jsOrStr, h1, h2]
  · intro r h1 h2 h3
    simp [getAppFromRequest, jsOrStr, h1, h2, h3]
  · intro r h1 h2 h3
    simp [getAppFromRequest, jsOrStr, h1, h2, h3]
  · intro url host hu hlen hsuf
    have hurl : ¬ url = "" := by
      intro h
      rw [h, urlHostname_empty] at hu
      cases hu
    simp [parseAppFromUrl, hurl, hu, hlen, hsuf]

/-- Witness for C4: an explicit body app is used verbatim, and Origin
`https://passport.vjstartup.com` resolves to `passport`. -/
theorem getAppFromRequest_precedence_and_rule_witness :
    getAppFromRequest
        ⟨some "wall", none, none, some "https://passport.vjstartup.com", none, none⟩
      = some "wall" ∧
    parseAppFromUrl (some "https://passport.vjstartup.com")
      = ((splitOnChar '.' ("passport.vjstartup.com" : String).data).head?).map
          (fun p => (⟨p⟩ : String)) :=
  ⟨getAppFromRequest_precedence_and_rule.1
      ⟨some "wall", none, none, some "https://passport.vjstartup.com", none, none⟩
      (by decide),
    getAppFromRequest_precedence_and_rule.2.2.2.2.1
      "https://passport.vjstartup.com" "passport.vjstartup.com"
      (by decide) (by decide) (by decide)⟩

/-- C3: `POST /auth/google` with a verifying identity token but a denied
access decision answers 403 with a body carrying `error` and `message`
fields, an empty `Set-Cookie` list (so neither `userToken` nor `user` is
set) and no signed session token in the body; with a failing identity
token it answers `401 {error}`, likewise with no cookies. -/
theorem postAuthGoogle_denied_403_invalid_401 :
    (∀ (cfg : Config) (gv : GoogleVerify) (now : Nat) (req : GoogleAuthReq)
        (c : Claim),
      gv req.bodyToken = .ok c →
      (checkAccess cfg.publicApps (some c.email)
        (getAppFromRequest req.appCtx)).allowed = false →
      postAuthGoogle cfg gv now req
        = { status := 403
            body := .denied "Access Denied (Only VNRVJIET allowed)"
              (some denialReason)
            cookies := [] }) ∧
    (∀ (cfg : Config) (gv : GoogleVerify) (now : Nat) (req : GoogleAuthReq),
      gv req.bodyToken = .error () →
      postAuthGoogle cfg gv now req
        = { status := 401, body := .invalidTok "Invalid Token", cookies := [] }) := by
  constructor
  · intro cfg gv now req c hok hden
    obtain ⟨hpub, hint⟩ :
        isPublicAppName cfg.publicApps (getAppFromRequest req.appCtx) = false ∧
        isInternalEmail (some c.email) = false := by
      have hb : (isPublicAppName cfg.publicApps (getAppFromRequest req.appCtx)
          || isInternalEmail (some c.email)) = false := hden
      exact Bool.or_eq_false_iff.mp hb
    simp [postAuthGoogle, hok, checkAccess, hpub, hint]
  · intro cfg gv now req herr
    simp [postAuthGoogle, herr]

/-- Witness for C3: a `user@gmail.com` identity with explicit app
`faculty-portal`, and a failing identity verification. -/
theorem postAuthGoogle_denied_403_invalid_401_witness :
    postAuthGoogle ⟨["wall", "events", "passport"], "secret"⟩
        (fun _ => .ok ⟨"user@gmail.com", "U", "p", "f"⟩) 0
        ⟨none, ⟨some "faculty-portal", none, none, none, none, none⟩,
          "auth.vjstartup.com"⟩
      = { status := 403
          body := .denied "Access Denied (Only VNRVJIET allowed)"
            (some denialReason)
          cookies := [] } ∧
    postAuthGoogle ⟨["wall", "events", "passport"], "secret"⟩
        (fun _ => .error ()) 0
        ⟨none, ⟨some "faculty-portal", none, none, none, none, none⟩,
          "auth.vjstartup.com"⟩
      = { status := 401, body := .invalidTok "Invalid Token", cookies := [] } :=
  ⟨postAuthGoogle_denied_403_invalid_401.1 ⟨["wall", "events", "passport"], "secret"⟩
      (fun _ => .ok ⟨"user@gmail.com", "U", "p", "f"⟩) 0
      ⟨none, ⟨some "faculty-portal", none, none, none, none, none⟩,
        "auth.vjstartup.com"⟩
      ⟨"user@gmail.com", "U", "p", "f"⟩ rfl (by decide),
    postAuthGoogle_denied_403_invalid_401.2 ⟨["wall", "events", "passport"], "secret"⟩
      (fun _ => .error ()) 0
      ⟨none, ⟨some "faculty-portal", none, none, none, none, none⟩,
        "auth.vjstartup.com"⟩ rfl⟩

/-- C5: signing a session credential embedding a claim with the server
secret and immediately verifying it (before expiry) returns that claim's
payload unchanged — in particular equal email, name and picture fields —
both at the sign/verify pair itself and through `POST /verify-token`
(whenever the access decision for the claim's email allows). -/
theorem session_credential_roundtrip :
    (∀ (secret : String) (c : Claim) (now : Nat),
      verifyJwt secret now (signJwt secret (.sso c) now) = some (.sso c)) ∧
    (∀ (cfg : Config) (now : Nat) (ctx : AppCtx) (c : Claim),
      (checkAccess cfg.publicApps (some c.email)
        (getAppFromRequest ctx)).allowed = true →
      postVerifyToken cfg now ⟨some (signJwt cfg.jwtSecret (.sso c) now), ctx⟩
        = (200, .ok (.sso c))) := by
  have hrt : ∀ (secret : String) (c : Claim) (now : Nat),
      verifyJwt secret now (signJwt secret (.sso c) now) = some (.sso c) := by
    intro secret c now
    have h : now < now + thirtyDays := Nat.lt_add_of_pos_right (by decide)
    simp [verifyJwt, signJwt, h]
  refine ⟨hrt, ?_⟩
  intro cfg now ctx c hall
  have hv := hrt cfg.jwtSecret c now
  have htt : tokTruthy (signJwt cfg.jwtSecret (.sso c) now) = true := rfl
  generalize hT : signJwt cfg.jwtSecret (Payload.sso c) now = T at hv htt
  simp [postVerifyToken, htt, hv, Payload.emailField, hall]

/-- Witness for C5 at the internal identity `user@vnrvjiet.in`. -/
theorem session_credential_roundtrip_witness :
    verifyJwt "secret" 0
        (signJwt "secret" (.sso ⟨"user@vnrvjiet.in", "U", "p", "f"⟩) 0)
      = some (.sso ⟨"user@vnrvjiet.in", "U", "p", "f"⟩) ∧
    postVerifyToken ⟨["wall"], "secret"⟩ 0
        ⟨some (signJwt "secret" (.sso ⟨"user@vnrvjiet.in", "U", "p", "f"⟩) 0),
          none, none, none, none, none, none⟩
      = (200, .ok (.sso ⟨"user@vnrvjiet.in", "U", "p", "f"⟩)) :=
  ⟨session_credential_roundtrip.1 "secret" ⟨"user@vnrvjiet.in", "U", "p", "f"⟩ 0,
    session_credential_roundtrip.2 ⟨["wall"], "secret"⟩ 0
      ⟨none, none, none, none, none, none⟩
      ⟨"user@vnrvjiet.in", "U", "p", "f"⟩ (by decide)⟩

/-- C6: the hybrid verifier tries SSO first (a valid SSO result passes
with `authMethod:'sso'` and the normalized caller id, independently of
the local path); any SSO failure — an explicit invalid result or a
thrown call — falls through to local JWT verification, whose success
passes with `authMethod:'local'`; if both paths fail the outcome is 401;
a request with no token is answered 401 by an outcome that does not
depend on the environment, i.e. without attempting either path; and a
passing outcome is tagged with exactly one of the two methods. -/
theorem verifyHybridToken_fallback_chain :
    (∀ (env env' : HybridEnv) (req : MwReq),
      optTokTruthy (extractToken req) = false →
      verifyHybridToken env req
          = .reject 401 "Authentication required - no token provided" ∧
        verifyHybridToken env req = verifyHybridToken env' req) ∧
    (∀ (env : HybridEnv) (req : MwReq) (t : Token) (u : SsoUser),
      extractToken req = some t → tokTruthy t = true →
      env.sso t = .valid u →
      verifyHybridToken env req = .pass (jsOrStr u.id u.underId) "sso") ∧
    (∀ (env : HybridEnv) (req : MwReq) (t : Token) (p : Payload) (u : LocalUser),
      extractToken req = some t → tokTruthy t = true →
      (env.sso t = .invalid ∨ env.sso t = .thrown) →
      verifyJwt env.localSecret env.now t = some p →
      env.findById p.userIdField = some u →
      verifyHybridToken env req = .pass (some u.idStr) "local") ∧
    (∀ (env : HybridEnv) (req : MwReq) (t : Token),
      extractToken req = some t → tokTruthy t = true →
      (env.sso t = .invalid ∨ env.sso t = .thrown) →
      verifyJwt env.localSecret env.now t = none →
      verifyHybridToken env req = .reject 401 "Invalid or expired token") ∧
    (∀ (env : HybridEnv) (req : MwReq) (t : Token) (p : Payload),
      extractToken req = some t → tokTruthy t = true →
      (env.sso t = .invalid ∨ env.sso t = .thrown) →
      verifyJwt env.localSecret env.now t = some p →
      env.findById p.userIdField = none →
      verifyHybridToken env req = .reject 401 "User not found") ∧
    (∀ (env : HybridEnv) (req : MwReq) (cid : Option String) (m : String),
      verifyHybridToken env req = .pass cid m → m = "sso" ∨ m = "local") := by
  refine ⟨?_, ?_, ?_, ?_, ?_, ?_⟩
  · intro env env' req h
    cases e : extractToken req with
    | none => simp [verifyHybridToken, e]
    | some t =>
      rw [e] at h
      simp only [optTokTruthy] at h
      simp [verifyHybridToken, e, h]
  · intro env req t u he ht hs
    simp [verifyHybridToken, he, ht, hs]
  · intro env req t p u he ht hs hv hf
    rcases hs with hs | hs <;>
      simp [verifyHybridToken, he, ht, hs, hv, hf]
  · intro env req t he ht hs hv
    rcases hs with hs | hs <;>
      simp [verifyHybridToken, he, ht, hs, hv]
  · intro env req t p he ht hs hv hf
    rcases hs with hs | hs <;>
      simp [verifyHybridToken, he, ht, hs, hv, hf]
  · intro env req cid m h
    simp only [verifyHybridToken] at h
    split at h
    · cases h
    · split at h
      · cases h
      · split at h
        · cases h
          exact Or.inl rfl
        · split at h
          · cases h
          · split at h
            · cases h
            · cases h
              exact Or.inr rfl

/-- Witness for C6: a valid SSO outcome, a local fallback success, a
double failure, and a missing token, each at concrete inputs. -/
theorem verifyHybridToken_fallback_chain_witness :
    verifyHybridToken
        ⟨fun _ => .valid ⟨some "u1", none⟩, "ls", 0, fun _ => none⟩
        ⟨some (.garbage "tok"), none, none⟩
      = .pass (jsOrStr (some "u1") none) "sso" ∧
    verifyHybridToken
        ⟨fun _ => .invalid, "ls", 5,
          fun i => if i = some "uid7" then some ⟨"uid7", "faculty", "e"⟩ else none⟩
        ⟨some (signJwt "ls" (.localUser "uid7" "faculty") 0), none, none⟩
      = .pass (some "uid7") "local" ∧
    verifyHybridToken
        ⟨fun _ => .thrown, "ls", 0, fun _ => none⟩
        ⟨some (.garbage "tok"), none, none⟩
      = .reject 401 "Invalid or expired token" ∧
    verifyHybridToken
        ⟨fun _ => .valid ⟨some "u1", none⟩, "ls", 0, fun _ => none⟩
        ⟨none, none, none⟩
      = .reject 401 "Authentication required - no token provided" :=
  ⟨verifyHybridToken_fallback_chain.2.1
      ⟨fun _ => .valid ⟨some "u1", none⟩, "ls", 0, fun _ => none⟩
      ⟨some (.garbage "tok"), none, none⟩ (.garbage "tok") ⟨some "u1", none⟩
      (by decide) (by decide) rfl,
    verifyHybridToken_fallback_chain.2.2.1
      ⟨fun _ => .invalid, "ls", 5,
        fun i => if i = some "uid7" then some ⟨"uid7", "faculty", "e"⟩ else none⟩
      ⟨some (signJwt "ls" (.localUser "uid7" "faculty") 0), none, none⟩
      (signJwt "ls" (.localUser "uid7" "faculty") 0)
      (.localUser "uid7" "faculty") ⟨"uid7", "faculty", "e"⟩
      rfl rfl (Or.inl rfl) (by decide) (by decide),
    verifyHybridToken_fallback_chain.2.2.2.1
      ⟨fun _ => .thrown, "ls", 0, fun _ => none⟩
      ⟨some (.garbage "tok"), none, none⟩ (.garbage "tok")
      (by decide) (by decide) (Or.inr rfl) (by decide),
    (verifyHybridToken_fallback_chain.1
      ⟨fun _ => .valid ⟨some "u1", none⟩, "ls", 0, fun _ => none⟩
      ⟨fun _ => .valid ⟨some "u1", none⟩, "ls", 0, fun _ => none⟩
      ⟨none, none, none⟩ (by decide)).1⟩

/-- C8 counterexample: the downstream `verifyToken` middleware, given a
present token that fails verification (the malformed token `"bad"`),
responds with HTTP 500 (`Server error`), not 401 — refuting the claim
that every verification middleware answers 401 on a failing token. -/
theorem verifyTokenMw_invalid_token_500_counterexample :
    tokTruthy (.garbage "bad") = true ∧
    verifyJwt "secret" 0 (.garbage "bad") = none ∧
    verifyTokenMw ⟨"secret", 0, fun _ => .ok none, fun _ => .ok none⟩
        ⟨some (.garbage "bad"), none, none⟩
      = .respond 500 "Server error" ∧
    (500 : Nat) ≠ 401 :=
  ⟨rfl, rfl, rfl, by decide⟩

/-- C8 amended: no verification middleware lets a token failure escape
uncaught, and `verifyHybridToken` maps a token failing both paths to
HTTP 401; but the downstream `verifyToken` middleware answers
500 (`Server error`) whenever `jwt.verify` fails on a present token —
its 401 responses are reserved for a missing token, an unknown user, or
an invalid token structure. -/
theorem middleware_invalid_token_status_mapping :
    (∀ (env : HybridEnv) (req : MwReq) (t : Token),
      extractToken req = some t → tokTruthy t = true →
      (env.sso t = .invalid ∨ env.sso t = .thrown) →
      verifyJwt env.localSecret env.now t = none →
      verifyHybridToken env req = .reject 401 "Invalid or expired token") ∧
    (∀ (env : VTEnv) (req : MwReq) (t : Token),
      extractToken req = some t → tokTruthy t = true →
      verifyJwt env.secret env.now t = none →
      verifyTokenMw env req = .respond 500 "Server error") := by
  constructor
  · intro env req t he ht hs hv
    rcases hs with hs | hs <;>
      simp [verifyHybridToken, he, ht, hs, hv]
  · intro env req t he ht hv
    simp [verifyTokenMw, he, ht, hv]

/-- Witness for the amended C8 at the malformed token `"bad"`. -/
theorem middleware_invalid_token_status_mapping_witness :
    verifyHybridToken ⟨fun _ => .invalid, "ls", 0, fun _ => none⟩
        ⟨some (.garbage "bad"), none, none⟩
      = .reject 401 "Invalid or expired token" ∧
    verifyTokenMw ⟨"secret", 3, fun _ => .ok none, fun _ => .ok none⟩
        ⟨some (.garbage "bad"), none, none⟩
      = .respond 500 "Server error" :=
  ⟨middleware_invalid_token_status_mapping.1
      ⟨fun _ => .invalid, "ls", 0, fun _ => none⟩
      ⟨some (.garbage "bad"), none, none⟩ (.garbage "bad")
      (by decide) (by decide) (Or.inl rfl) (by decide),
    middleware_invalid_token_status_mapping.2
      ⟨"secret", 3, fun _ => .ok none, fun _ => .ok none⟩
      ⟨some (.garbage "bad"), none, none⟩ (.garbage "bad")
      (by decide) (by decide) (by decide)⟩

end Keys
